import Mathlib

/-!
Verification development for the token sentiment analysis repository.

The repository contains two revisions of the same decision pipeline:
an older one in main.py and a newer one in utils.py, together with the
collaborator services (database.py, fetch_ohlcv.py, gemini.py) and the
constants module (constants.py).  Pure data flow is embedded directly;
each effectful collaborator call is modelled as a function returning
an Except value, where the error channel stands for a raised Python
exception carrying its description string, and Option stands for the
None / value distinction of the source.  Python truthiness tests on
strings, lists and None are modelled by explicit falsiness predicates.
-/

/-- Membership in the whitespace set removed by the Python strip method,
restricted to the ASCII whitespace characters. -/
def is_py_space (c : Char) : Bool :=
  c == ' ' || c == '\t' || c == '\n' || c == '\r' || c == '\x0b' || c == '\x0c'

/-- Model of the Python strip method on a character list: remove leading and
trailing whitespace. -/
def py_strip (l : List Char) : List Char :=
  ((l.dropWhile is_py_space).reverse.dropWhile is_py_space).reverse

/-- Model of the Python lower method on a character list (ASCII lowering). -/
def py_lower (l : List Char) : List Char :=
  l.map Char.toLower

/-- Model of the Python lower method on a whole string. -/
def py_lower_str (s : String) : String :=
  ⟨py_lower s.data⟩

/-- Python truthiness of an optional string: None and the empty string are
falsy, every other string is truthy. -/
def py_falsy_str : Option String → Bool
  | none => true
  | some s => s.isEmpty

namespace Gemini

/-- Embedding of the response handling of SentimentAnalyzer.analyze_sentiment
in services/gemini.py: the reply text is stripped, lowercased, and compared
with the accepted decision words; any other reply yields None. -/
def process_response (text : List Char) : Option (List Char) :=
  let decision := py_lower (py_strip text)
  if decision = "buy".toList ∨ decision = "skip".toList then some decision
  else none

end Gemini

namespace Database

/-- Row shape returned by the tweet query in services/database.py: tweet id,
body, creation time (held here in the already formatted string produced by
strftime) and author handle. -/
structure TweetRecord where
  tweet_id : String
  body : String
  tweet_create_time : String
  author_handle : String
  deriving DecidableEq

/-- Bundle built by fetch_recent_tweets: the newest row and the remaining
rows, newest first. -/
structure TweetBundle where
  recent_tweet : TweetRecord
  past_tweets : List TweetRecord
  deriving DecidableEq

/-- Embedding of DatabaseService.execute_query: the query outcome is a list
of rows, or a database error, which the method swallows by returning None. -/
def execute_query (outcome : Except String (List TweetRecord)) :
    Option (List TweetRecord) :=
  match outcome with
  | .ok rows => some rows
  | .error _ => none

/-- Embedding of DatabaseService.fetch_recent_tweets: run the query, return
None when the result is None or empty, and otherwise build the bundle from
the first row and the remaining rows. -/
def fetch_recent_tweets (outcome : Except String (List TweetRecord)) :
    Option TweetBundle :=
  match execute_query outcome with
  | none => none
  | some [] => none
  | some (r :: rest) => some ⟨r, rest⟩

end Database

namespace Ohlcv

/-- Embedding of the chain normalization in OHLCVService.fetch_ohlcv: the
chain is lowercased and then rewritten by four successive equality tests. -/
def api_chain_of (chain : String) : String :=
  let api_chain := py_lower_str chain
  let api_chain := if api_chain = "ethereum" then "eth" else api_chain
  let api_chain := if api_chain = "binance" then "bsc" else api_chain
  let api_chain := if api_chain = "polygon" then "polygon_pos" else api_chain
  let api_chain := if api_chain = "avalanche" then "avax" else api_chain
  api_chain

/-- Embedding of the request URL built in OHLCVService.fetch_ohlcv, with
current_epoch standing for the integer epoch of the recent tweet creation
time. -/
def ohlcv_url (base_url : String) (api_chain : String) (pair_id : String)
    (current_epoch : Int) : String :=
  base_url ++ "/networks/" ++ api_chain ++ "/pools/" ++ pair_id ++
    "/ohlcv/hour?aggregate=1&before_timestamp=" ++ toString current_epoch ++
    "&limit=240&currency=usd&include_empty_intervals=false"

end Ohlcv

namespace Utils

/-- Collaborators consumed by the pipeline of utils.py, one field per
external call it makes.  The strptime field models the datetime parse of
the recent tweet creation time, producing an abstract timestamp; each
error value stands for an exception raised by that call. -/
structure Services (π : Type) where
  fetch_recent_tweets : String → Nat → Except String (Option Database.TweetBundle)
  strptime : String → Except String Int
  formatted_fetch_ohlcv : Int → String → String → Except String (Option (List π))
  analyze_sentiment : Database.TweetBundle → List π →
    Except String (Option String × Option String)

/-- Embedding of the body of the try block of
SentimentAnalysisService.analyze_token_sentiment in utils.py, step by
step: tweet fetch, timestamp parse, OHLCV fetch with its hard stop, the
sentiment call, and the decision mapping.  The error channel carries any
exception escaping an inner step. -/
def analyze_token_sentiment_body {π : Type} (S : Services π)
    (token_id twitter_handle pair_id chain : String) :
    Except String (Option String × Option String) :=
  match S.fetch_recent_tweets twitter_handle 21 with
  | .error e => .error e
  | .ok none =>
    .ok (none, some ("No recent tweets found for Twitter handle: " ++ twitter_handle))
  | .ok (some tweets_data) =>
    match S.strptime tweets_data.recent_tweet.tweet_create_time with
    | .error e => .error e
    | .ok tweet_datetime =>
      match S.formatted_fetch_ohlcv tweet_datetime chain pair_id with
      | .error e => .error e
      | .ok none => .ok (none, some "Failed to fetch OHLCV data")
      | .ok (some ohlcv_data) =>
        if ohlcv_data.isEmpty then .ok (none, some "Failed to fetch OHLCV data")
        else
          match S.analyze_sentiment tweets_data ohlcv_data with
          | .error e => .error e
          | .ok (decision, reason) =>
            if py_falsy_str decision then
              .ok (none, if py_falsy_str reason then some "Sentiment analysis failed" else reason)
            else if decision = some "positive" then .ok (some "positive", reason)
            else .ok (some "negative", reason)

/-- Embedding of SentimentAnalysisService.analyze_token_sentiment in
utils.py: the surrounding try converts any escaping exception into the
failure pair with the pipeline error prefix. -/
def analyze_token_sentiment {π : Type} (S : Services π)
    (token_id twitter_handle pair_id chain : String) :
    Option String × Option String :=
  match analyze_token_sentiment_body S token_id twitter_handle pair_id chain with
  | .ok r => r
  | .error e => (none, some ("Error in analysis pipeline: " ++ e))

/-- Row shape iterated by analyze_multiple_tokens in utils.py; the market
capitalization and volume fields are only logged, so their type is left as
a parameter. -/
structure TokenRow (μ : Type) where
  token_id : String
  pair_id : String
  twitter_handle : String
  chain : String
  marketcap : μ
  volume_24hrs : μ
  deriving DecidableEq

/-- Model of assignment into a Python dict with string keys: an existing
key keeps its position and has its value replaced, a new key is appended. -/
def dict_insert {V : Type} (m : List (String × V)) (k : String) (v : V) :
    List (String × V) :=
  if m.any (fun p => p.1 == k) then
    m.map (fun p => if p.1 == k then (k, v) else p)
  else m ++ [(k, v)]

/-- Value recorded for one row by the batch loop of
analyze_multiple_tokens: the per token try either yields the analysis
pair, or catches the fault and converts it to the unexpected error
pair. -/
def per_token_result {μ : Type}
    (per_token : TokenRow μ → Except String (Option String × Option String))
    (row : TokenRow μ) : Option String × Option String :=
  match per_token row with
  | .ok r => r
  | .error e => (none, some ("Unexpected error: " ++ e))

/-- Embedding of SentimentAnalysisService.analyze_multiple_tokens in
utils.py: iterate the rows in order, analyze each inside a per token try,
and record either the analysis pair or the caught fault converted to the
unexpected error pair. -/
def analyze_multiple_tokens {μ : Type}
    (per_token : TokenRow μ → Except String (Option String × Option String))
    (token_data : List (TokenRow μ)) :
    List (String × (Option String × Option String)) :=
  token_data.foldl
    (fun results row => dict_insert results row.token_id (per_token_result per_token row))
    []

end Utils

namespace MainPy

/-- Collaborators consumed by the older pipeline of main.py.  Its tweet
fetch is indexed like a list, its OHLCV call takes only chain and pair,
and its sentiment call receives the recent tweet, the historical tweets
and the optional OHLCV data, returning a single optional decision word. -/
structure Services (π : Type) where
  fetch_recent_tweets : String → Nat → Except String (Option (List Database.TweetRecord))
  fetch_ohlcv : String → String → Except String (Option (List π))
  analyze_sentiment : Database.TweetRecord → List Database.TweetRecord →
    Option (List π) → Except String (Option String)

/-- Embedding of the body of the try block of
SentimentAnalysisService.analyze_token_sentiment in main.py: the handle
guard, the tweet fetch with the Python truthiness test covering both None
and an empty list, the OHLCV fetch whose absence is only logged, the
sentiment call and the decision mapping. -/
def analyze_token_sentiment_body {π : Type} (S : Services π)
    (token_id twitter_handle pair_id chain : String) :
    Except String (Option String × Option String) :=
  if twitter_handle.isEmpty then .ok (none, some "No Twitter handle found for token")
  else
    match S.fetch_recent_tweets twitter_handle 21 with
    | .error e => .error e
    | .ok none =>
      .ok (none, some ("No recent tweets found for Twitter handle: " ++ twitter_handle))
    | .ok (some []) =>
      .ok (none, some ("No recent tweets found for Twitter handle: " ++ twitter_handle))
    | .ok (some (most_recent_tweet :: historical_tweets)) =>
      match S.fetch_ohlcv chain pair_id with
      | .error e => .error e
      | .ok ohlcv_data =>
        match S.analyze_sentiment most_recent_tweet historical_tweets ohlcv_data with
        | .error e => .error e
        | .ok decision =>
          if py_falsy_str decision then
            .ok (none, some "Failed to generate sentiment analysis")
          else if decision = some "buy" then
            .ok (some "positive", some "Recent tweet contains unique, impactful information")
          else
            .ok (some "negative", some "Recent tweet contains repetitive or non-significant information")

/-- Embedding of SentimentAnalysisService.analyze_token_sentiment in
main.py together with its surrounding try. -/
def analyze_token_sentiment {π : Type} (S : Services π)
    (token_id twitter_handle pair_id chain : String) :
    Option String × Option String :=
  match analyze_token_sentiment_body S token_id twitter_handle pair_id chain with
  | .ok r => r
  | .error e => (none, some ("Error in analysis pipeline: " ++ e))

end MainPy

/-- Threshold from services/constants.py separating the positive and
negative classifications of a parsed score. -/
def RESPONSE_THRESHOLD : Int := 60

namespace SpecModel

/-- Modelled from the spec: the score based revision of the reasoning
engine adapter is not present under the sources - services/gemini.py holds
the earlier word based adapter, while utils.py (the caller, which expects
a decision and reason pair) and RESPONSE_THRESHOLD in services/constants.py
belong to the score based revision.  The label whose following integer is
extracted from the model reply. -/
def score_label : List Char := "Score:".toList

/-- Modelled from the spec: numeric value of a run of decimal digits. -/
def nat_of_digits (ds : List Char) : Nat :=
  ds.foldl (fun a c => 10 * a + (c.toNat - 48)) 0

/-- Modelled from the spec: read a decimal integer (an optional minus sign
followed by at least one digit) from the front of the text. -/
def read_int (l : List Char) : Option Int :=
  match l with
  | '-' :: rest =>
    let ds := rest.takeWhile Char.isDigit
    if ds.isEmpty then none else some (-(nat_of_digits ds : Int))
  | _ =>
    let ds := l.takeWhile Char.isDigit
    if ds.isEmpty then none else some ((nat_of_digits ds : Int))

/-- Modelled from the spec: attempt to match the score pattern at the head
of the text - the literal label, optional whitespace, then a decimal
integer. -/
def score_at (l : List Char) : Option Int :=
  if score_label.isPrefixOf l then
    read_int ((l.drop score_label.length).dropWhile is_py_space)
  else none

/-- Modelled from the spec: locate the first position of the reply where
the score pattern matches, ignoring text anywhere else. -/
def find_score : List Char → Option Int
  | [] => none
  | c :: rest =>
    match score_at (c :: rest) with
    | some v => some v
    | none => find_score rest

/-- Modelled from the spec (steps 5 to 7 of the adapter contract): parse
the reply with the single line numeric pattern; a missing match is the
unexpected response failure carrying the raw text, and an extracted
integer outside zero to one hundred is the out of range failure, never
clamped. -/
def parse_score (reply : String) : Except String Int :=
  match find_score reply.toList with
  | none => Except.error ("Unexpected model response: " ++ reply)
  | some v =>
    if 0 ≤ v ∧ v ≤ 100 then Except.ok v
    else Except.error ("Score out of range: " ++ toString v)

/-- Modelled from the spec: the score based analyze_sentiment returns the
decision and reason pair consumed by utils.py - a parse failure propagates
its reason with no decision, and a valid score is classified against
RESPONSE_THRESHOLD with the score reason string. -/
def analyze_sentiment (reply : String) : Option String × Option String :=
  match parse_score reply with
  | .error reason => (none, some reason)
  | .ok s =>
    if RESPONSE_THRESHOLD ≤ s then (some "positive", some ("Score: " ++ toString s))
    else (some "negative", some ("Score: " ++ toString s))

end SpecModel

/-! Concrete fixtures used by witnesses and counterexamples. -/

/-- Sample newest tweet row. -/
def rec1 : Database.TweetRecord := ⟨"1", "launch day", "2025-01-01 00:00:00", "@proj"⟩

/-- Sample historical tweet row. -/
def rec2 : Database.TweetRecord := ⟨"2", "airdrop soon", "2024-12-31 00:00:00", "@proj"⟩

/-- Sample historical tweet row. -/
def rec3 : Database.TweetRecord := ⟨"3", "roadmap", "2024-12-30 00:00:00", "@proj"⟩

/-- Sample historical tweet row. -/
def rec4 : Database.TweetRecord := ⟨"4", "partnership", "2024-12-29 00:00:00", "@proj"⟩

/-- Sample historical tweet row. -/
def rec5 : Database.TweetRecord := ⟨"5", "listing", "2024-12-28 00:00:00", "@proj"⟩

/-- Sample historical tweet row. -/
def rec6 : Database.TweetRecord := ⟨"6", "update", "2024-12-27 00:00:00", "@proj"⟩

/-- Sample bundle with six total records. -/
def sample_bundle : Database.TweetBundle := ⟨rec1, [rec2, rec3, rec4, rec5, rec6]⟩

/-- Three sample rows, fewer than five. -/
def rows3 : List Database.TweetRecord := [rec1, rec2, rec3]

/-- Collaborators whose tweet fetch and timestamp parse succeed, whose
OHLCV fetch returns None, and whose sentiment call would succeed. -/
def svc_price_none : Utils.Services String :=
  ⟨fun _ _ => .ok (some sample_bundle), fun _ => .ok 1735689600,
   fun _ _ _ => .ok none, fun _ _ => .ok (some "positive", some "Score: 80")⟩

/-- Collaborators that fully succeed, with the sentiment call behaving as
the score based adapter on the given reply. -/
def svc_ok (reply : String) : Utils.Services String :=
  ⟨fun _ _ => .ok (some sample_bundle), fun _ => .ok 1735689600,
   fun _ _ _ => .ok (some ["p1", "p2"]),
   fun _ _ => .ok (SpecModel.analyze_sentiment reply)⟩

/-- Collaborators whose tweet fetch yields the bundle built from the three
sample rows and whose OHLCV fetch returns None. -/
def svc_rows3_price_none : Utils.Services String :=
  ⟨fun _ _ => .ok (Database.fetch_recent_tweets (.ok rows3)), fun _ => .ok 1735689600,
   fun _ _ _ => .ok none, fun _ _ => .ok (some "positive", some "Score: 80")⟩

/-- Collaborators identical to svc_rows3_price_none except that the OHLCV
fetch raises. -/
def svc_rows3_price_error : Utils.Services String :=
  ⟨fun _ _ => .ok (Database.fetch_recent_tweets (.ok rows3)), fun _ => .ok 1735689600,
   fun _ _ _ => .error "network down", fun _ _ => .ok (some "positive", some "Score: 80")⟩

/-- Collaborators whose tweet fetch finds no tweets. -/
def svc_db_none : Utils.Services String :=
  ⟨fun _ _ => .ok none, fun _ => .ok 1735689600,
   fun _ _ _ => .ok (some ["p1"]), fun _ _ => .ok (some "positive", some "Score: 80")⟩

/-- Collaborators identical to svc_db_none except that the tweet fetch
raises. -/
def svc_db_error : Utils.Services String :=
  ⟨fun _ _ => .error "db unavailable", fun _ => .ok 1735689600,
   fun _ _ _ => .ok (some ["p1"]), fun _ _ => .ok (some "positive", some "Score: 80")⟩

/-- Concrete collaborators for the older pipeline of main.py. -/
def main_svc : MainPy.Services String :=
  ⟨fun _ _ => .ok (some [rec1, rec2]), fun _ _ => .ok (some ["p1"]),
   fun _ _ _ => .ok (some "buy")⟩

/-- Token row fixture. -/
def tok1 : Utils.TokenRow Unit := ⟨"T1", "P1", "@a", "ethereum", (), ()⟩

/-- Token row fixture. -/
def tok2 : Utils.TokenRow Unit := ⟨"T2", "P2", "@b", "binance", (), ()⟩

/-- Token row fixture. -/
def tok3 : Utils.TokenRow Unit := ⟨"T3", "P3", "@c", "polygon", (), ()⟩

/-- Token row fixture sharing the identifier of dup_row_b. -/
def dup_row_a : Utils.TokenRow Unit := ⟨"A", "P1", "@a", "ethereum", (), ()⟩

/-- Token row fixture sharing the identifier of dup_row_a. -/
def dup_row_b : Utils.TokenRow Unit := ⟨"A", "P2", "@a", "ethereum", (), ()⟩

/-- Per token analysis fixture that records the pair identifier of the row
in the reason, making distinct rows observable in the run result. -/
def pair_tagging_per_token : Utils.TokenRow Unit → Except String (Option String × Option String) :=
  fun row => .ok (some "positive", some row.pair_id)

/-- Per token analysis fixture that raises on the second token only. -/
def batch_per_token : Utils.TokenRow Unit → Except String (Option String × Option String) :=
  fun row => if row.token_id = "T2" then .error "boom" else .ok (some "positive", some "Score: 80")

/-! Claim theorems. -/

/-- Claim C3, counterexample: with a successful tweet fetch and an OHLCV
fetch returning no usable series, the utils.py pipeline returns the
indeterminate pair whose reason is Failed to fetch OHLCV data, which
differs from the reason Failed to fetch price data asserted by the
claim. -/
theorem claim_c3_counterexample :
    Utils.analyze_token_sentiment svc_price_none "T1" "@proj" "P1" "ethereum"
      = (none, some "Failed to fetch OHLCV data")
    ∧ (some "Failed to fetch OHLCV data" : Option String) ≠ some "Failed to fetch price data" :=
  ⟨rfl, by decide⟩

/-- Claim C3, amended: for every token whose tweet fetch succeeds and whose
price fetch returns no usable series (None or an empty list), the utils.py
pipeline returns Indeterminate with the reason Failed to fetch OHLCV data,
and it does not proceed to the scoring step: the sentiment collaborator is
universally quantified, so the result is independent of it. -/
theorem claim_c3_price_absence_hard_stop {π : Type} (S : Utils.Services π)
    (token_id twitter_handle pair_id chain : String)
    (bundle : Database.TweetBundle) (t : Int)
    (h1 : S.fetch_recent_tweets twitter_handle 21 = .ok (some bundle))
    (h2 : S.strptime bundle.recent_tweet.tweet_create_time = .ok t)
    (h3 : S.formatted_fetch_ohlcv t chain pair_id = .ok none ∨
          S.formatted_fetch_ohlcv t chain pair_id = .ok (some [])) :
    Utils.analyze_token_sentiment S token_id twitter_handle pair_id chain
      = (none, some "Failed to fetch OHLCV data") := by
  rcases h3 with h3 | h3 <;>
    simp [Utils.analyze_token_sentiment, Utils.analyze_token_sentiment_body, h1, h2, h3]

/-- Claim C3, witness for the amended theorem. -/
theorem claim_c3_price_absence_hard_stop_witness :
    Utils.analyze_token_sentiment svc_price_none "T2" "@proj" "P2" "binance"
      = (none, some "Failed to fetch OHLCV data") :=
  claim_c3_price_absence_hard_stop svc_price_none "T2" "@proj" "P2" "binance"
    sample_bundle 1735689600 rfl rfl (Or.inl rfl)

/-- Claim C9: a database error during the tweet query is swallowed by
execute_query, so for every choice of the remaining collaborators the
utils.py pipeline returns exactly the same indeterminate reason naming the
handle for a database failure as for a handle with zero stored rows: at
the public interface a fetch failure is indistinguishable from genuine
tweet absence. -/
theorem claim_c9_db_error_indistinguishable {π : Type}
    (st : String → Except String Int)
    (fo : Int → String → String → Except String (Option (List π)))
    (an : Database.TweetBundle → List π → Except String (Option String × Option String))
    (token_id twitter_handle pair_id chain e : String) :
    Utils.analyze_token_sentiment
        ⟨fun _ _ => .ok (Database.fetch_recent_tweets (.error e)), st, fo, an⟩
        token_id twitter_handle pair_id chain
      = (none, some ("No recent tweets found for Twitter handle: " ++ twitter_handle))
    ∧ Utils.analyze_token_sentiment
        ⟨fun _ _ => .ok (Database.fetch_recent_tweets (.ok [])), st, fo, an⟩
        token_id twitter_handle pair_id chain
      = (none, some ("No recent tweets found for Twitter handle: " ++ twitter_handle)) :=
  ⟨rfl, rfl⟩

/-- Claim C7, counterexample: in the utils.py pipeline an empty social
handle is not rejected before the tweet fetch.  The two collaborator sets
below differ only in the outcome of the tweet fetch, yet give different
analysis results for an empty handle, so the tweet fetch is invoked. -/
theorem claim_c7_counterexample :
    Utils.analyze_token_sentiment svc_db_none "T1" "" "P1" "ethereum"
      = (none, some "No recent tweets found for Twitter handle: ")
    ∧ Utils.analyze_token_sentiment svc_db_error "T1" "" "P1" "ethereum"
      = (none, some "Error in analysis pipeline: db unavailable")
    ∧ Utils.analyze_token_sentiment svc_db_none "T1" "" "P1" "ethereum"
      ≠ Utils.analyze_token_sentiment svc_db_error "T1" "" "P1" "ethereum" :=
  ⟨rfl, rfl, by decide⟩

/-- Claim C7, amended: in the older pipeline of main.py an empty or absent
handle is rejected immediately with the no handle reason for every choice
of collaborators, so neither fetch can influence the result; in the
current pipeline of utils.py there is no handle guard - the tweet fetch is
invoked with the empty handle, and when it finds no rows the result is the
indeterminate reason naming the empty handle. -/
theorem claim_c7_empty_handle {π : Type} (M : MainPy.Services π) (S : Utils.Services π)
    (token_id pair_id chain : String) :
    MainPy.analyze_token_sentiment M token_id "" pair_id chain
      = (none, some "No Twitter handle found for token")
    ∧ (S.fetch_recent_tweets "" 21 = .ok none →
       Utils.analyze_token_sentiment S token_id "" pair_id chain
         = (none, some "No recent tweets found for Twitter handle: ")) := by
  constructor
  · rfl
  · intro h
    simp [Utils.analyze_token_sentiment, Utils.analyze_token_sentiment_body, h]

/-- Claim C7, witness for the amended theorem. -/
theorem claim_c7_empty_handle_witness :
    MainPy.analyze_token_sentiment main_svc "T1" "" "P1" "ethereum"
      = (none, some "No Twitter handle found for token")
    ∧ Utils.analyze_token_sentiment svc_db_none "T1" "" "P1" "ethereum"
      = (none, some "No recent tweets found for Twitter handle: ") :=
  ⟨(claim_c7_empty_handle main_svc svc_db_none "T1" "P1" "ethereum").1,
   (claim_c7_empty_handle main_svc svc_db_none "T1" "P1" "ethereum").2 rfl⟩

/-- Claim C6, counterexample: a tweet fetch result of three rows - fewer
than five - is not treated as insufficient: the bundle is built and the
pipeline proceeds to the price fetch, as shown by two collaborator sets
that differ only in the price fetch outcome and give different results. -/
theorem claim_c6_counterexample :
    rows3.length = 3 ∧ (3 : Nat) < 5
    ∧ Database.fetch_recent_tweets (.ok rows3) = some ⟨rec1, [rec2, rec3]⟩
    ∧ Utils.analyze_token_sentiment svc_rows3_price_none "T1" "@proj" "P1" "ethereum"
      = (none, some "Failed to fetch OHLCV data")
    ∧ Utils.analyze_token_sentiment svc_rows3_price_error "T1" "@proj" "P1" "ethereum"
      = (none, some "Error in analysis pipeline: network down")
    ∧ Utils.analyze_token_sentiment svc_rows3_price_none "T1" "@proj" "P1" "ethereum"
      ≠ Utils.analyze_token_sentiment svc_rows3_price_error "T1" "@proj" "P1" "ethereum" :=
  ⟨rfl, by decide, rfl, rfl, rfl, by decide⟩

/-- Claim C6, amended: the insufficiency signal of fetch_recent_tweets
fires exactly for zero rows - any nonzero row count builds the bundle -
and when the fetch signals insufficiency the utils.py pipeline returns
Indeterminate with a reason naming the handle, without invoking the price
fetch or the scoring step (both collaborators are universally
quantified). -/
theorem claim_c6_zero_rows_indeterminate {π : Type} (S : Utils.Services π)
    (token_id twitter_handle pair_id chain : String) :
    (∀ rows : List Database.TweetRecord,
      Database.fetch_recent_tweets (.ok rows) = none ↔ rows = [])
    ∧ (∀ (r : Database.TweetRecord) (rest : List Database.TweetRecord),
        Database.fetch_recent_tweets (.ok (r :: rest)) = some ⟨r, rest⟩)
    ∧ (S.fetch_recent_tweets twitter_handle 21 = .ok none →
        Utils.analyze_token_sentiment S token_id twitter_handle pair_id chain
          = (none, some ("No recent tweets found for Twitter handle: " ++ twitter_handle))) := by
  refine ⟨?_, ?_, ?_⟩
  · intro rows
    cases rows <;> simp [Database.fetch_recent_tweets, Database.execute_query]
  · intro r rest
    rfl
  · intro h
    simp [Utils.analyze_token_sentiment, Utils.analyze_token_sentiment_body, h]

/-- Claim C6, witness for the amended theorem. -/
theorem claim_c6_zero_rows_indeterminate_witness :
    Utils.analyze_token_sentiment svc_db_none "T3" "@proj" "P3" "polygon"
      = (none, some ("No recent tweets found for Twitter handle: " ++ "@proj")) :=
  (claim_c6_zero_rows_indeterminate svc_db_none "T3" "@proj" "P3" "polygon").2.2 rfl

/-- Claim C4: both pipeline revisions convert any exception escaping an
inner step into the indeterminate pair carrying the pipeline error prefix
and the exception description, and a successful body is returned as is -
so the public operation always yields a decision and reason pair and never
raises.  The conjuncts also trace each individual step of utils.py: a
raising tweet fetch, timestamp parse, OHLCV fetch or sentiment call each
produce the converted pair. -/
theorem claim_c4_boundary_catch {π : Type} (S : Utils.Services π) (M : MainPy.Services π)
    (token_id twitter_handle pair_id chain : String) :
    (∀ e, Utils.analyze_token_sentiment_body S token_id twitter_handle pair_id chain = .error e →
       Utils.analyze_token_sentiment S token_id twitter_handle pair_id chain
         = (none, some ("Error in analysis pipeline: " ++ e)))
    ∧ (∀ r, Utils.analyze_token_sentiment_body S token_id twitter_handle pair_id chain = .ok r →
       Utils.analyze_token_sentiment S token_id twitter_handle pair_id chain = r)
    ∧ (∀ e, S.fetch_recent_tweets twitter_handle 21 = .error e →
       Utils.analyze_token_sentiment S token_id twitter_handle pair_id chain
         = (none, some ("Error in analysis pipeline: " ++ e)))
    ∧ (∀ bundle e, S.fetch_recent_tweets twitter_handle 21 = .ok (some bundle) →
       S.strptime bundle.recent_tweet.tweet_create_time = .error e →
       Utils.analyze_token_sentiment S token_id twitter_handle pair_id chain
         = (none, some ("Error in analysis pipeline: " ++ e)))
    ∧ (∀ bundle t e, S.fetch_recent_tweets twitter_handle 21 = .ok (some bundle) →
       S.strptime bundle.recent_tweet.tweet_create_time = .ok t →
       S.formatted_fetch_ohlcv t chain pair_id = .error e →
       Utils.analyze_token_sentiment S token_id twitter_handle pair_id chain
         = (none, some ("Error in analysis pipeline: " ++ e)))
    ∧ (∀ bundle t prices e, S.fetch_recent_tweets twitter_handle 21 = .ok (some bundle) →
       S.strptime bundle.recent_tweet.tweet_create_time = .ok t →
       S.formatted_fetch_ohlcv t chain pair_id = .ok (some prices) →
       prices.isEmpty = false →
       S.analyze_sentiment bundle prices = .error e →
       Utils.analyze_token_sentiment S token_id twitter_handle pair_id chain
         = (none, some ("Error in analysis pipeline: " ++ e)))
    ∧ (∀ e, MainPy.analyze_token_sentiment_body M token_id twitter_handle pair_id chain = .error e →
       MainPy.analyze_token_sentiment M token_id twitter_handle pair_id chain
         = (none, some ("Error in analysis pipeline: " ++ e))) := by
  refine ⟨?_, ?_, ?_, ?_, ?_, ?_, ?_⟩
  · intro e h
    simp [Utils.analyze_token_sentiment, h]
  · intro r h
    simp [Utils.analyze_token_sentiment, h]
  · intro e h
    simp [Utils.analyze_token_sentiment, Utils.analyze_token_sentiment_body, h]
  · intro bundle e h1 h2
    simp [Utils.analyze_token_sentiment, Utils.analyze_token_sentiment_body, h1, h2]
  · intro bundle t e h1 h2 h3
    simp [Utils.analyze_token_sentiment, Utils.analyze_token_sentiment_body, h1, h2, h3]
  · intro bundle t prices e h1 h2 h3 h4 h5
    simp [Utils.analyze_token_sentiment, Utils.analyze_token_sentiment_body, h1, h2, h3, h4, h5]
  · intro e h
    simp [MainPy.analyze_token_sentiment, h]

/-- Claim C4, witness: a raising tweet fetch is converted into the
indeterminate pipeline error pair. -/
theorem claim_c4_boundary_catch_witness :
    Utils.analyze_token_sentiment svc_db_error "T1" "@proj" "P1" "ethereum"
      = (none, some ("Error in analysis pipeline: " ++ "db unavailable")) :=
  (claim_c4_boundary_catch svc_db_error main_svc "T1" "@proj" "P1" "ethereum").2.2.1
    "db unavailable" rfl

/-- Helper: assigning a key absent from the dict model appends it. -/
theorem dict_insert_of_fresh {V : Type} (m : List (String × V)) (k : String) (v : V)
    (h : ∀ p ∈ m, p.1 ≠ k) : Utils.dict_insert m k v = m ++ [(k, v)] := by
  have hany : m.any (fun p => p.1 == k) = false := by
    rw [List.any_eq_false]
    intro p hp
    simp [h p hp]
  simp [Utils.dict_insert, hany]

/-- Helper: with pairwise distinct identifiers and an accumulator disjoint
from them, the batch fold appends one entry per row in input order. -/
theorem foldl_dict_insert_eq {μ : Type}
    (per_token : Utils.TokenRow μ → Except String (Option String × Option String))
    (tokens : List (Utils.TokenRow μ)) :
    ∀ acc : List (String × (Option String × Option String)),
      (tokens.map (fun r => r.token_id)).Nodup →
      (∀ r ∈ tokens, ∀ p ∈ acc, p.1 ≠ r.token_id) →
      List.foldl
          (fun results row =>
            Utils.dict_insert results row.token_id (Utils.per_token_result per_token row))
          acc tokens
        = acc ++ tokens.map (fun row => (row.token_id, Utils.per_token_result per_token row)) := by
  induction tokens with
  | nil =>
    intro acc _ _
    simp
  | cons t rest ih =>
    intro acc hnodup hdisj
    simp only [List.map_cons, List.nodup_cons] at hnodup
    rw [List.foldl_cons,
      dict_insert_of_fresh _ _ _ (fun p hp => hdisj t (List.mem_cons_self t rest) p hp),
      ih (acc ++ [(t.token_id, Utils.per_token_result per_token t)]) hnodup.2 ?_]
    · simp
    · intro r hr p hp
      rcases List.mem_append.mp hp with hp | hp
      · exact hdisj r (List.mem_cons_of_mem t hr) p hp
      · have hpt : p.1 = t.token_id := by
          simp only [List.mem_singleton] at hp
          simp [hp]
        have : t.token_id ≠ r.token_id := by
          intro hcontra
          exact hnodup.1 (hcontra ▸ List.mem_map_of_mem (fun r => r.token_id) hr)
        simpa [hpt] using this

/-- Claim C5, counterexample: with two rows sharing one token identifier
the batch produces a single entry, not one entry per token, and the entry
of the first row is overwritten in place by the second row. -/
theorem claim_c5_counterexample :
    Utils.analyze_multiple_tokens pair_tagging_per_token [dup_row_a, dup_row_b]
      = [("A", (some "positive", some "P2"))]
    ∧ [dup_row_a, dup_row_b].length = 2
    ∧ Utils.analyze_multiple_tokens pair_tagging_per_token [dup_row_a]
      = [("A", (some "positive", some "P1"))] :=
  ⟨rfl, rfl, rfl⟩

/-- Claim C5, amended: for every sequence of token rows with pairwise
distinct token identifiers, the batch of utils.py produces exactly one
entry per row, with insertion order equal to processing order, without
overwriting, and a fault raised during one analysis is caught per token
and recorded as that token entry with the unexpected error reason, never
aborting the remaining tokens: the run result is the input row list mapped
through the per token result. -/
theorem claim_c5_batch_accumulation {μ : Type}
    (per_token : Utils.TokenRow μ → Except String (Option String × Option String))
    (token_data : List (Utils.TokenRow μ))
    (hnodup : (token_data.map (fun r => r.token_id)).Nodup) :
    Utils.analyze_multiple_tokens per_token token_data
      = token_data.map (fun row => (row.token_id, Utils.per_token_result per_token row))
    ∧ (Utils.analyze_multiple_tokens per_token token_data).map Prod.fst
      = token_data.map (fun r => r.token_id)
    ∧ (Utils.analyze_multiple_tokens per_token token_data).length = token_data.length := by
  have h := foldl_dict_insert_eq per_token token_data [] hnodup (by simp)
  have hmain : Utils.analyze_multiple_tokens per_token token_data
      = token_data.map (fun row => (row.token_id, Utils.per_token_result per_token row)) := by
    simpa [Utils.analyze_multiple_tokens] using h
  refine ⟨hmain, ?_, ?_⟩
  · rw [hmain]
    simp [List.map_map]
  · rw [hmain]
    simp

/-- Claim C5, witness: three distinct tokens where the second analysis
raises yield three entries in input order, the faulty token carrying the
caught unexpected error pair. -/
theorem claim_c5_batch_accumulation_witness :
    Utils.analyze_multiple_tokens batch_per_token [tok1, tok2, tok3]
      = [("T1", (some "positive", some "Score: 80")),
         ("T2", (none, some "Unexpected error: boom")),
         ("T3", (some "positive", some "Score: 80"))] :=
  (claim_c5_batch_accumulation batch_per_token [tok1, tok2, tok3] (by decide)).1.trans (by decide)

/-- Helper: ASCII lowering fixes every whitespace character. -/
theorem toLower_eq_self_of_space (c : Char) (h : is_py_space c = true) : c.toLower = c := by
  simp only [is_py_space, Bool.or_eq_true, beq_iff_eq] at h
  rcases h with ((((h | h) | h) | h) | h) | h <;> subst h <;> decide

/-- Helper: dropping whitespace from the front skips a whitespace only
block. -/
theorem dropWhile_space_append (ws l : List Char) (h : ∀ c ∈ ws, is_py_space c = true) :
    (ws ++ l).dropWhile is_py_space = l.dropWhile is_py_space := by
  induction ws with
  | nil => simp
  | cons c rest ih =>
    simp only [List.cons_append, List.dropWhile_cons]
    rw [h c (List.mem_cons_self c rest)]
    exact ih (fun d hd => h d (List.mem_cons_of_mem _ hd))

/-- Helper: a list with no whitespace is unchanged by the whitespace
drop. -/
theorem dropWhile_eq_self_of_all_false (l : List Char) (h : ∀ c ∈ l, is_py_space c = false) :
    l.dropWhile is_py_space = l := by
  cases l with
  | nil => rfl
  | cons c rest =>
    rw [List.dropWhile_cons, h c (List.mem_cons_self c rest)]
    simp

/-- Helper: stripping removes exactly the surrounding whitespace around a
nonempty whitespace free core. -/
theorem py_strip_pad (ws1 ws2 core : List Char)
    (h1 : ∀ c ∈ ws1, is_py_space c = true) (h2 : ∀ c ∈ ws2, is_py_space c = true)
    (hcore : ∀ c ∈ core, is_py_space c = false) (hne : core ≠ []) :
    py_strip (ws1 ++ core ++ ws2) = core := by
  have hback : (core ++ ws2).reverse.dropWhile is_py_space = core.reverse := by
    rw [List.reverse_append,
      dropWhile_space_append ws2.reverse core.reverse
        (fun c hc => h2 c (List.mem_reverse.mp hc)),
      dropWhile_eq_self_of_all_false core.reverse
        (fun c hc => hcore c (List.mem_reverse.mp hc))]
  obtain ⟨c, rest, rfl⟩ := List.exists_cons_of_ne_nil hne
  have hfront : ((c :: rest) ++ ws2).dropWhile is_py_space = (c :: rest) ++ ws2 := by
    rw [List.cons_append, List.dropWhile_cons, hcore c (List.mem_cons_self c rest)]
    simp
  unfold py_strip
  rw [List.append_assoc, dropWhile_space_append ws1 _ h1, hfront, hback,
    List.reverse_reverse]

/-- Helper: a text whose lowering is one of the accepted decision words
contains no whitespace and is nonempty. -/
theorem decision_core_no_space (core : List Char)
    (hd : py_lower core = "buy".toList ∨ py_lower core = "skip".toList) :
    (∀ c ∈ core, is_py_space c = false) ∧ core ≠ [] := by
  constructor
  · intro c hc
    have hmem : c.toLower ∈ py_lower core := List.mem_map_of_mem Char.toLower hc
    by_contra hsp
    have hsp' : is_py_space c = true := by
      cases hb : is_py_space c
      · exact absurd hb hsp
      · rfl
    rw [toLower_eq_self_of_space c hsp'] at hmem
    rcases hd with hd | hd <;> rw [hd] at hmem <;> simp at hmem
    · rcases hmem with h | h | h <;> subst h <;> simp [is_py_space] at hsp'
    · rcases hmem with h | h | h | h <;> subst h <;> simp [is_py_space] at hsp'
  · intro hnil
    subst hnil
    rcases hd with hd | hd <;> simp [py_lower] at hd

/-- Claim C10: the adapter of services/gemini.py strips surrounding
whitespace and lowercases the reply before matching it against the
accepted decision words, so a reply differing from an accepted decision
only by letter case or surrounding whitespace is accepted as that
decision; a reply whose stripped lowering is neither accepted word yields
no decision, and the only possible outcomes are None or one of the two
accepted words. -/
theorem claim_c10_strip_lower_match (ws1 ws2 core text : List Char) :
    ((∀ c ∈ ws1, is_py_space c = true) → (∀ c ∈ ws2, is_py_space c = true) →
     (py_lower core = "buy".toList ∨ py_lower core = "skip".toList) →
     Gemini.process_response (ws1 ++ core ++ ws2) = some (py_lower core))
    ∧ (py_lower (py_strip text) ≠ "buy".toList → py_lower (py_strip text) ≠ "skip".toList →
       Gemini.process_response text = none)
    ∧ (Gemini.process_response text = none ∨
       Gemini.process_response text = some "buy".toList ∨
       Gemini.process_response text = some "skip".toList) := by
  refine ⟨?_, ?_, ?_⟩
  · intro h1 h2 hd
    obtain ⟨hcore, hne⟩ := decision_core_no_space core hd
    rw [Gemini.process_response, py_strip_pad ws1 ws2 core h1 h2 hcore hne]
    rcases hd with hd | hd <;> simp [hd]
  · intro hb hs
    have hrw : Gemini.process_response text
        = if py_lower (py_strip text) = "buy".toList ∨ py_lower (py_strip text) = "skip".toList
          then some (py_lower (py_strip text)) else none := rfl
    rw [hrw, if_neg]
    rintro (h | h)
    · exact hb h
    · exact hs h
  · have hrw : Gemini.process_response text
        = if py_lower (py_strip text) = "buy".toList ∨ py_lower (py_strip text) = "skip".toList
          then some (py_lower (py_strip text)) else none := rfl
    rw [hrw]
    split_ifs with h
    · rcases h with h | h
      · exact Or.inr (Or.inl (by rw [h]))
      · exact Or.inr (Or.inr (by rw [h]))
    · exact Or.inl rfl

/-- Claim C10, witness: a reply that is an accepted word up to case and
surrounding whitespace is accepted. -/
theorem claim_c10_strip_lower_match_witness :
    Gemini.process_response ("  ".toList ++ "BuY".toList ++ "\n".toList)
      = some (py_lower "BuY".toList) :=
  (claim_c10_strip_lower_match "  ".toList "\n".toList "BuY".toList []).1
    (by decide) (by decide) (Or.inl (by decide))

/-- Helper: the score pattern never matches at the end of the text. -/
theorem score_at_nil : SpecModel.score_at [] = none := rfl

/-- Helper: a found score comes from the first position where the score
pattern matches; every earlier position fails. -/
theorem find_score_some :
    ∀ (l : List Char) (v : Int), SpecModel.find_score l = some v →
      ∃ i, SpecModel.score_at (l.drop i) = some v ∧
           ∀ j < i, SpecModel.score_at (l.drop j) = none := by
  intro l
  induction l with
  | nil =>
    intro v h
    simp [SpecModel.find_score] at h
  | cons c rest ih =>
    intro v h
    simp only [SpecModel.find_score] at h
    cases hsc : SpecModel.score_at (c :: rest) with
    | some w =>
      rw [hsc] at h
      refine ⟨0, ?_, ?_⟩
      · simpa [hsc] using h
      · intro j hj
        exact absurd hj (Nat.not_lt_zero j)
    | none =>
      rw [hsc] at h
      obtain ⟨i, hi, hj⟩ := ih v h
      refine ⟨i + 1, ?_, ?_⟩
      · simpa [List.drop_succ_cons] using hi
      · intro j hjlt
        cases j with
        | zero => simpa using hsc
        | succ j => simpa [List.drop_succ_cons] using hj j (Nat.lt_of_succ_lt_succ hjlt)

/-- Helper: when the search fails, the score pattern matches at no position
of the text. -/
theorem find_score_none :
    ∀ (l : List Char), SpecModel.find_score l = none →
      ∀ i, SpecModel.score_at (l.drop i) = none := by
  intro l
  induction l with
  | nil =>
    intro _ i
    simp [List.drop_nil, score_at_nil]
  | cons c rest ih =>
    intro h i
    simp only [SpecModel.find_score] at h
    cases hsc : SpecModel.score_at (c :: rest) with
    | some w =>
      rw [hsc] at h
      simp at h
    | none =>
      rw [hsc] at h
      cases i with
      | zero => simpa using hsc
      | succ i => simpa [List.drop_succ_cons] using ih h i

/-- Helper: a successfully parsed score lies between zero and one
hundred. -/
theorem parse_score_ok_range (reply : String) (v : Int)
    (h : SpecModel.parse_score reply = .ok v) : 0 ≤ v ∧ v ≤ 100 := by
  unfold SpecModel.parse_score at h
  cases hf : SpecModel.find_score reply.toList with
  | none =>
    rw [hf] at h
    exact Except.noConfusion h
  | some w =>
    simp only [hf] at h
    by_cases hr : 0 ≤ w ∧ w ≤ 100
    · rw [if_pos hr] at h
      obtain rfl : w = v := by simpa using h
      exact hr
    · rw [if_neg hr] at h
      exact Except.noConfusion h

/-- Claim C2: the parse extracts the decimal integer following the first
occurrence of the score label, ignoring text anywhere else; a successful
parse is in range and is witnessed by the earliest matching position, an
extracted integer out of range yields the out of range failure message
with the offending value, never clamped, a reply with no match anywhere
yields the unexpected response failure carrying the raw text, and parsing
is a pure function of the text. -/
theorem claim_c2_parse_contract (reply : String) :
    (∀ v : Int, SpecModel.parse_score reply = .ok v →
      (0 ≤ v ∧ v ≤ 100) ∧
      ∃ i, SpecModel.score_at (reply.toList.drop i) = some v ∧
           ∀ j < i, SpecModel.score_at (reply.toList.drop j) = none)
    ∧ (∀ v : Int, SpecModel.find_score reply.toList = some v → ¬(0 ≤ v ∧ v ≤ 100) →
        SpecModel.parse_score reply = .error ("Score out of range: " ++ toString v))
    ∧ ((∀ i, SpecModel.score_at (reply.toList.drop i) = none) →
        SpecModel.parse_score reply = .error ("Unexpected model response: " ++ reply))
    ∧ (∀ other : String, other = reply →
        SpecModel.parse_score other = SpecModel.parse_score reply) := by
  refine ⟨?_, ?_, ?_, ?_⟩
  · intro v h
    refine ⟨parse_score_ok_range reply v h, ?_⟩
    unfold SpecModel.parse_score at h
    cases hf : SpecModel.find_score reply.toList with
    | none =>
      rw [hf] at h
      exact Except.noConfusion h
    | some w =>
      simp only [hf] at h
      by_cases hr : 0 ≤ w ∧ w ≤ 100
      · rw [if_pos hr] at h
        obtain rfl : w = v := by simpa using h
        exact find_score_some reply.toList w hf
      · rw [if_neg hr] at h
        exact Except.noConfusion h
  · intro v hf hr
    unfold SpecModel.parse_score
    rw [hf]
    simp only []
    rw [if_neg hr]
  · intro hall
    unfold SpecModel.parse_score
    cases hf : SpecModel.find_score reply.toList with
    | none => rfl
    | some w =>
      obtain ⟨i, hi, _⟩ := find_score_some reply.toList w hf
      rw [hall i] at hi
      exact Option.noConfusion hi
  · intro other h
    rw [h]

/-- Claim C2, witness: the round trip examples of the contract - an out of
range reply fails with the exact message and a conforming reply parses to
its score. -/
theorem claim_c2_parse_contract_witness :
    SpecModel.parse_score "Score: 101" = .error ("Score out of range: " ++ toString (101 : Int))
    ∧ SpecModel.parse_score "Score: 73" = .ok 73
    ∧ (0 ≤ (73 : Int) ∧ (73 : Int) ≤ 100) :=
  ⟨(claim_c2_parse_contract "Score: 101").2.1 101 (by decide) (by decide),
   rfl,
   ((claim_c2_parse_contract "Score: 73").1 73 rfl).1⟩

/-- Claim C1: when the scoring step yields a valid score, that score lies
in range, and the pipeline of utils.py run against the score based adapter
classifies it as positive exactly when the score reaches the threshold of
sixty, and as negative exactly when the score is below sixty, in both
cases with the score reason string. -/
theorem claim_c1_threshold_classification {π : Type} (S : Utils.Services π)
    (token_id twitter_handle pair_id chain : String)
    (bundle : Database.TweetBundle) (t : Int) (prices : List π) (reply : String) (s : Int)
    (h1 : S.fetch_recent_tweets twitter_handle 21 = .ok (some bundle))
    (h2 : S.strptime bundle.recent_tweet.tweet_create_time = .ok t)
    (h3 : S.formatted_fetch_ohlcv t chain pair_id = .ok (some prices))
    (h4 : prices.isEmpty = false)
    (h5 : S.analyze_sentiment bundle prices = .ok (SpecModel.analyze_sentiment reply))
    (h6 : SpecModel.parse_score reply = .ok s) :
    RESPONSE_THRESHOLD = 60
    ∧ (0 ≤ s ∧ s ≤ 100)
    ∧ (Utils.analyze_token_sentiment S token_id twitter_handle pair_id chain
        = (some "positive", some ("Score: " ++ toString s)) ↔ 60 ≤ s)
    ∧ (Utils.analyze_token_sentiment S token_id twitter_handle pair_id chain
        = (some "negative", some ("Score: " ++ toString s)) ↔ (0 ≤ s ∧ s < 60)) := by
  have hadapter : SpecModel.analyze_sentiment reply
      = if 60 ≤ s then (some "positive", some ("Score: " ++ toString s))
        else (some "negative", some ("Score: " ++ toString s)) := by
    unfold SpecModel.analyze_sentiment RESPONSE_THRESHOLD
    simp only [h6]
  have hrange := parse_score_ok_range reply s h6
  have hfp : py_falsy_str (some "positive") = false := rfl
  have hfn : py_falsy_str (some "negative") = false := rfl
  have hpipe : Utils.analyze_token_sentiment S token_id twitter_handle pair_id chain
      = if 60 ≤ s then (some "positive", some ("Score: " ++ toString s))
        else (some "negative", some ("Score: " ++ toString s)) := by
    rw [← hadapter]
    by_cases hts : 60 ≤ s
    · have had : SpecModel.analyze_sentiment reply
          = (some "positive", some ("Score: " ++ toString s)) := by
        rw [hadapter, if_pos hts]
      unfold Utils.analyze_token_sentiment Utils.analyze_token_sentiment_body
      simp only [h1, h2, h3, h4, h5, had, hfp, Bool.false_eq_true, if_false]
      simp
    · have had : SpecModel.analyze_sentiment reply
          = (some "negative", some ("Score: " ++ toString s)) := by
        rw [hadapter, if_neg hts]
      unfold Utils.analyze_token_sentiment Utils.analyze_token_sentiment_body
      simp only [h1, h2, h3, h4, h5, had, hfn, Bool.false_eq_true, if_false]
      simp
  refine ⟨rfl, hrange, ?_, ?_⟩
  · rw [hpipe]
    by_cases hts : 60 ≤ s
    · rw [if_pos hts]
      simp [hts]
    · rw [if_neg hts]
      constructor
      · intro h
        have := congrArg Prod.fst h
        simp at this
      · intro h
        exact absurd h hts
  · rw [hpipe]
    by_cases hts : 60 ≤ s
    · rw [if_pos hts]
      constructor
      · intro h
        have := congrArg Prod.fst h
        simp at this
      · intro h
        omega
    · rw [if_neg hts]
      constructor
      · intro _
        exact ⟨hrange.1, by omega⟩
      · intro _
        rfl

/-- Claim C1, witness: with a reply scoring eighty the pipeline classifies
the token as positive with the score reason. -/
theorem claim_c1_threshold_classification_witness :
    (0 ≤ (80 : Int) ∧ (80 : Int) ≤ 100)
    ∧ Utils.analyze_token_sentiment (svc_ok "Score: 80") "T1" "@proj" "P1" "ethereum"
        = (some "positive", some ("Score: " ++ toString (80 : Int))) := by
  have h := claim_c1_threshold_classification (svc_ok "Score: 80") "T1" "@proj" "P1" "ethereum"
      sample_bundle 1735689600 ["p1", "p2"] "Score: 80" 80 rfl rfl rfl rfl rfl rfl
  exact ⟨h.2.1, h.2.2.1.mpr (by norm_num)⟩

/-- Claim C8: the price history request of fetch_ohlcv normalizes the
chain to its network code - ethereum to eth, binance to bsc, polygon to
polygon_pos, avalanche to avax, every other chain passing through its
lowercase form - and the request URL asks for hourly candles, aggregation
one, at most two hundred forty points, anchored by passing the tweet epoch
as the before timestamp bound. -/
theorem claim_c8_request_parameters (base_url chain pair_id : String) (current_epoch : Int) :
    (Ohlcv.api_chain_of "ethereum" = "eth" ∧ Ohlcv.api_chain_of "binance" = "bsc"
      ∧ Ohlcv.api_chain_of "polygon" = "polygon_pos" ∧ Ohlcv.api_chain_of "avalanche" = "avax")
    ∧ (py_lower_str chain ≠ "ethereum" → py_lower_str chain ≠ "binance" →
       py_lower_str chain ≠ "polygon" → py_lower_str chain ≠ "avalanche" →
       Ohlcv.api_chain_of chain = py_lower_str chain)
    ∧ Ohlcv.ohlcv_url base_url (Ohlcv.api_chain_of chain) pair_id current_epoch
        = base_url ++ "/networks/" ++ Ohlcv.api_chain_of chain ++ "/pools/" ++ pair_id ++
          "/ohlcv/hour?aggregate=1&before_timestamp=" ++ toString current_epoch ++
          "&limit=240&currency=usd&include_empty_intervals=false" := by
  refine ⟨⟨by decide, by decide, by decide, by decide⟩, ?_, rfl⟩
  intro hne1 hne2 hne3 hne4
  unfold Ohlcv.api_chain_of
  simp [hne1, hne2, hne3, hne4]

/-- Claim C8, witness: a chain outside the normalization table passes
through in lowercase form. -/
theorem claim_c8_request_parameters_witness :
    Ohlcv.api_chain_of "solana" = py_lower_str "solana" :=
  (claim_c8_request_parameters "b" "solana" "p" 0).2.1
    (by decide) (by decide) (by decide) (by decide)
